import Mathlib

/-!
Verification development for the taxonomy_mapper repository.

The repository classifies fiction blurbs against a taxonomy by delegating to a
remote LLM service and validating the response locally.  The development below
embeds the relevant Python code shallowly in Lean:

* `Json` and `jsonLoads` model Python values produced by `json.loads`
  (`src/llm_arbiter.py` uses `json.loads` on a brace-delimited snippet);
* `safe_parse_json`, `guardCore`, `classify` model `LLMArbiter._safe_parse_json`
  and `LLMArbiter.classify`;
* `is_obviously_nonfiction`, `build_context` model `Preprocessor`;
* `extract_leaf_labels`, `pySortedSet` model `TaxonomyLoader._extract_leaf_labels`
  and the `sorted(set(...))` normalisation in `LLMArbiter.__init__`;
* `map_story` models `InferenceEngine.map_story`.

Python exceptions are modelled with `Except String`: a `.error` value marks an
exception propagating out of the modelled function, an `.ok` value a normal
return.
-/

/-- A JSON value as produced by Python `json.loads`.  Python dicts are kept as
association lists in insertion order (duplicate keys resolved by `objLookup`,
last binding wins, as for a Python dict built by repeated assignment).
For numbers only their truthiness is ever observed by the program (in the
`or ""` default and in the usage arithmetic), so the embedding records only
whether the literal denotes zero; `NaN` and the infinities (accepted by Python
`json.loads`) are non-zero. -/
inductive Json where
  | null : Json
  | bool (b : Bool) : Json
  | num (isZero : Bool) : Json
  | str (s : String) : Json
  | arr (items : List Json) : Json
  | obj (fields : List (String × Json)) : Json
deriving Repr

/-- Python `dict` lookup on the association list of parsed fields: the last
binding for a key wins, `none` when the key is absent. -/
def objLookup (fields : List (String × Json)) (key : String) : Option Json :=
  fields.foldl (fun acc p => if p.1 == key then some p.2 else acc) none

/-- Python truthiness of a JSON-decoded value (`bool(x)`): `None`, `False`,
numeric zero, the empty string, the empty list and the empty dict are falsy. -/
def jsonTruthy : Json → Bool
  | Json.null => false
  | Json.bool b => b
  | Json.num isZero => !isZero
  | Json.str s => !(s == "")
  | Json.arr items => !items.isEmpty
  | Json.obj fields => !fields.isEmpty

/-- JSON whitespace skipped by Python `json.loads` (space, tab, newline,
carriage return). -/
def isJsonWs (c : Char) : Bool :=
  c == ' ' || c == '\t' || c == '\n' || c == '\r'

def skipWs (cs : List Char) : List Char :=
  cs.dropWhile isJsonWs

def hexDigitVal (c : Char) : Option Nat :=
  if '0' ≤ c ∧ c ≤ '9' then some (c.toNat - 48)
  else if 'a' ≤ c ∧ c ≤ 'f' then some (c.toNat - 87)
  else if 'A' ≤ c ∧ c ≤ 'F' then some (c.toNat - 55)
  else none

def parseHex4 : List Char → Option (Nat × List Char)
  | a :: b :: c :: d :: rest => do
    let va ← hexDigitVal a
    let vb ← hexDigitVal b
    let vc ← hexDigitVal c
    let vd ← hexDigitVal d
    some (va * 4096 + vb * 256 + vc * 16 + vd, rest)
  | _ => none

/-- Stand-in for a lone UTF-16 surrogate in a `\uXXXX` escape: Python keeps the
surrogate code unit inside its `str`; a Lean `Char` cannot hold one, so the
replacement character stands in.  No claim exercises this corner. -/
def surrogateStandIn : Char := Char.ofNat 0xFFFD

/-- Body of a JSON string literal after the opening quote, per Python
`py_scanstring` in strict mode: raw control characters below `0x20` are
rejected, the eight escapes and `\uXXXX` (with surrogate-pair combination) are
recognised. -/
def parseStringBody : Nat → List Char → List Char → Option (String × List Char)
  | 0, _, _ => none
  | Nat.succ fuel, acc, cs =>
    match cs with
    | [] => none
    | '"' :: rest => some (⟨acc.reverse⟩, rest)
    | '\\' :: '"' :: rest => parseStringBody fuel ('"' :: acc) rest
    | '\\' :: '\\' :: rest => parseStringBody fuel ('\\' :: acc) rest
    | '\\' :: '/' :: rest => parseStringBody fuel ('/' :: acc) rest
    | '\\' :: 'b' :: rest => parseStringBody fuel ('\x08' :: acc) rest
    | '\\' :: 'f' :: rest => parseStringBody fuel ('\x0c' :: acc) rest
    | '\\' :: 'n' :: rest => parseStringBody fuel ('\n' :: acc) rest
    | '\\' :: 'r' :: rest => parseStringBody fuel ('\r' :: acc) rest
    | '\\' :: 't' :: rest => parseStringBody fuel ('\t' :: acc) rest
    | '\\' :: 'u' :: rest =>
      match parseHex4 rest with
      | none => none
      | some (n, rest2) =>
        if 0xD800 ≤ n ∧ n ≤ 0xDBFF then
          match rest2 with
          | '\\' :: 'u' :: rest3 =>
            match parseHex4 rest3 with
            | some (m, rest4) =>
              if 0xDC00 ≤ m ∧ m ≤ 0xDFFF then
                parseStringBody fuel
                  (Char.ofNat (0x10000 + (n - 0xD800) * 1024 + (m - 0xDC00)) :: acc) rest4
              else parseStringBody fuel (surrogateStandIn :: acc) rest2
            | none => parseStringBody fuel (surrogateStandIn :: acc) rest2
          | _ => parseStringBody fuel (surrogateStandIn :: acc) rest2
        else if 0xDC00 ≤ n ∧ n ≤ 0xDFFF then
          parseStringBody fuel (surrogateStandIn :: acc) rest2
        else
          parseStringBody fuel (Char.ofNat n :: acc) rest2
    | '\\' :: _ :: _ => none
    | c :: rest =>
      if c.toNat < 0x20 then none else parseStringBody fuel (c :: acc) rest

/-- A JSON number per the `NUMBER_RE` regular expression of Python `json`:
`-? (0 | [1-9][0-9]*) (. [0-9]+)? ([eE] [+-]? [0-9]+)?`.  The result records
whether every mantissa digit is zero (the only observable property).  Python
float underactivity for astronomically small exponents (a floating-point
artefact) is outside the embedding. -/
def parseNumber (cs : List Char) : Option (Json × List Char) :=
  let signSplit : Bool × List Char :=
    match cs with
    | '-' :: r => (true, r)
    | _ => (false, cs)
  let rest0 := signSplit.2
  let intSplit : Option (List Char × List Char) :=
    match rest0 with
    | '0' :: r => some (['0'], r)
    | c :: r =>
      if c.isDigit ∧ c ≠ '0' then
        some (c :: r.takeWhile Char.isDigit, r.dropWhile Char.isDigit)
      else none
    | [] => none
  match intSplit with
  | none => none
  | some (intDigits, rest1) =>
    let fracSplit : List Char × List Char :=
      match rest1 with
      | '.' :: r =>
        if (r.takeWhile Char.isDigit).isEmpty then ([], rest1)
        else (r.takeWhile Char.isDigit, r.dropWhile Char.isDigit)
      | _ => ([], rest1)
    let rest2 := fracSplit.2
    let rest3 : List Char :=
      match rest2 with
      | e :: r =>
        if e == 'e' || e == 'E' then
          let r2 := match r with
            | s :: r2 => if s == '+' || s == '-' then r2 else r
            | [] => r
          if (r2.takeWhile Char.isDigit).isEmpty then rest2
          else r2.dropWhile Char.isDigit
        else rest2
      | [] => rest2
    let allZero := (intDigits ++ fracSplit.1).all (fun c => c == '0')
    some (Json.num allZero, rest3)

mutual

/-- Recursive-descent value parser mirroring Python `json.loads`, fuelled to
make termination structural.  The fuel supplied by `jsonLoads` always
suffices, so fuel exhaustion is unreachable there. -/
def parseValue : Nat → List Char → Option (Json × List Char)
  | 0, _ => none
  | Nat.succ fuel, cs =>
    match cs with
    | '"' :: rest =>
      (match parseStringBody (rest.length + 1) [] rest with
       | some (s, r) => some (Json.str s, r)
       | none => none)
    | '\x7b' :: rest => parseObjBody fuel rest
    | '[' :: rest => parseArrBody fuel rest
    | 't' :: 'r' :: 'u' :: 'e' :: r => some (Json.bool true, r)
    | 'f' :: 'a' :: 'l' :: 's' :: 'e' :: r => some (Json.bool false, r)
    | 'n' :: 'u' :: 'l' :: 'l' :: r => some (Json.null, r)
    | 'N' :: 'a' :: 'N' :: r => some (Json.num false, r)
    | 'I' :: 'n' :: 'f' :: 'i' :: 'n' :: 'i' :: 't' :: 'y' :: r => some (Json.num false, r)
    | '-' :: 'I' :: 'n' :: 'f' :: 'i' :: 'n' :: 'i' :: 't' :: 'y' :: r => some (Json.num false, r)
    | _ => parseNumber cs

/-- Object body after the opening brace. -/
def parseObjBody : Nat → List Char → Option (Json × List Char)
  | 0, _ => none
  | Nat.succ fuel, cs =>
    match skipWs cs with
    | '\x7d' :: rest => some (Json.obj [], rest)
    | rest => parseMembers fuel [] rest

/-- Members of an object: key string, colon, value, then comma or closing
brace; no trailing comma, keys must be strings. -/
def parseMembers : Nat → List (String × Json) → List Char → Option (Json × List Char)
  | 0, _, _ => none
  | Nat.succ fuel, acc, cs =>
    match cs with
    | '"' :: rest =>
      (match parseStringBody (rest.length + 1) [] rest with
       | none => none
       | some (key, r1) =>
         match skipWs r1 with
         | ':' :: r2 =>
           (match parseValue fuel (skipWs r2) with
            | none => none
            | some (v, r3) =>
              match skipWs r3 with
              | ',' :: r4 => parseMembers fuel ((key, v) :: acc) (skipWs r4)
              | '\x7d' :: r4 => some (Json.obj ((key, v) :: acc).reverse, r4)
              | _ => none)
         | _ => none)
    | _ => none

/-- Array body after the opening bracket. -/
def parseArrBody : Nat → List Char → Option (Json × List Char)
  | 0, _ => none
  | Nat.succ fuel, cs =>
    match skipWs cs with
    | ']' :: rest => some (Json.arr [], rest)
    | rest => parseItems fuel [] rest

def parseItems : Nat → List Json → List Char → Option (Json × List Char)
  | 0, _, _ => none
  | Nat.succ fuel, acc, cs =>
    match parseValue fuel cs with
    | none => none
    | some (v, r1) =>
      match skipWs r1 with
      | ',' :: r2 => parseItems fuel (v :: acc) (skipWs r2)
      | ']' :: r2 => some (Json.arr (v :: acc).reverse, r2)
      | _ => none

end

/-- Python `json.loads`: parse one value with surrounding whitespace and
require the input to be exhausted. -/
def jsonLoads (s : String) : Option Json :=
  match parseValue (4 * s.length + 16) (skipWs s.toList) with
  | some (v, rest) => if (skipWs rest).isEmpty then some v else none
  | none => none

/-- Characters stripped by Python `str.strip()` with no argument (the common
whitespace code points; more exotic Unicode space characters are not
exercised by this program). -/
def isPySpace (c : Char) : Bool :=
  c == ' ' || c == '\t' || c == '\n' || c == '\r' || c == '\x0b' || c == '\x0c' ||
  c == '\x1c' || c == '\x1d' || c == '\x1e' || c == '\x1f' || c == '\x85' || c == '\xa0'

/-- Python `str.strip()`. -/
def pyStrip (s : String) : String :=
  ⟨((s.toList.dropWhile isPySpace).reverse.dropWhile isPySpace).reverse⟩

/-- Python slicing `s[:n]`. -/
def pyTake (n : Nat) (s : String) : String :=
  ⟨s.toList.take n⟩

/-- The dict returned by `LLMArbiter._safe_parse_json` when extraction or
parsing fails (its `except` branch). -/
def fallbackFields : List (String × Json) :=
  [("category", Json.str "[UNMAPPED]"),
   ("reasoning", Json.str "Failed to parse JSON from model output; marking as [UNMAPPED] per Honesty rule.")]

/-- `LLMArbiter._safe_parse_json`: take the substring from the first opening
brace to the last closing brace of the raw text (`text.find` / `text.rfind`)
and run `json.loads` on it; any failure yields `fallbackFields`.  A successful
parse of a brace-delimited snippet is necessarily an object, so the non-object
match arm below is unreachable and routed to the same fallback. -/
def safe_parse_json (text : String) : List (String × Json) :=
  let cs := text.toList
  match cs.findIdx? (fun c => c == '\x7b'), cs.reverse.findIdx? (fun c => c == '\x7d') with
  | some start, some jrev =>
    let stop := cs.length - jrev
    if stop ≤ start then fallbackFields
    else
      match jsonLoads ⟨(cs.drop start).take (stop - start)⟩ with
      | some (Json.obj fields) => fields
      | _ => fallbackFields
  | _, _ => fallbackFields

/-- The appended clause of the hallucination guard in `LLMArbiter.classify`
(the adjacent Python string literals concatenated). -/
def coerceNote : String :=
  " Model proposed a label outside the taxonomy; coerced to [UNMAPPED] to respect the Hierarchy rule."

/-- The generic explanation substituted for an empty reasoning string. -/
def genericNote : String :=
  "Model did not provide a reasoning string; defaulted to a generic explanation."

/-- Python `parsed.get("reasoning") or ""`: an absent key gives `None`, a falsy
value is replaced by the empty string, a truthy value is kept. -/
def pyOrEmpty : Option Json → Json
  | some v => if jsonTruthy v then v else Json.str ""
  | none => Json.str ""

/-- The allow-list / hallucination guard of `LLMArbiter.classify`
(`if category not in self.allowed_labels and category != "[UNMAPPED]"`).
A non-string parsed category compares unequal to every allowed label and to
the sentinel in Python, hence is always coerced. -/
def hierarchyGuard (categoryJ : Json) (allowed : List String) (reasoning : String) :
    String × String :=
  match categoryJ with
  | Json.str c =>
    if allowed.contains c || c == "[UNMAPPED]" then (c, reasoning)
    else ("[UNMAPPED]", if reasoning == "" then coerceNote else reasoning ++ coerceNote)
  | _ => ("[UNMAPPED]", if reasoning == "" then coerceNote else reasoning ++ coerceNote)

/-- `if not reasoning: reasoning = ...` in `LLMArbiter.classify`. -/
def defaultReasoning (p : String × String) : String × String :=
  (p.1, if p.2 == "" then genericNote else p.2)

/-- Lines 130-143 of `LLMArbiter.classify` applied to the already-parsed dict:
`parsed.get("category", "[UNMAPPED]")` defaults an absent category to the
sentinel; `(parsed.get("reasoning") or "").strip()` raises `AttributeError`
when the reasoning field holds a truthy non-string value, modelled by the
`.error` branch. -/
def guardFromParsed (parsed : List (String × Json)) (allowed : List String) :
    Except String (String × String) :=
  match pyOrEmpty (objLookup parsed "reasoning") with
  | Json.str s =>
    Except.ok (defaultReasoning (hierarchyGuard
      ((objLookup parsed "category").getD (Json.str "[UNMAPPED]"))
      allowed (pyStrip s)))
  | _ => Except.error "AttributeError: the reasoning value has no strip attribute"

/-- The Classification Guard: `_safe_parse_json` followed by the validation
and coercion steps of `LLMArbiter.classify` (lines 128-143). -/
def guardCore (rawText : String) (allowed : List String) : Except String (String × String) :=
  guardFromParsed (safe_parse_json rawText) allowed

/-- A final classification record as returned by `InferenceEngine.map_story`. -/
structure Final where
  category : String
  reasoning : String
  status : String
deriving Repr, DecidableEq

/-- Status derivation of `InferenceEngine.map_story`:
`"MAPPED" if result["category"] != "[UNMAPPED]" else "UNMAPPED"`. -/
def toFinal (p : String × String) : Final :=
  ⟨p.1, p.2, if p.1 != "[UNMAPPED]" then "MAPPED" else "UNMAPPED"⟩

/-- The Guard composed with the status derivation (spec section 4.3 step 5). -/
def guardFinal (rawText : String) (allowed : List String) : Except String Final :=
  (guardCore rawText allowed).map toFinal

/-- Two successive runs of the Guard on the same inputs: the guard logic reads
no mutable state, so both runs are the same pure computation. -/
def runGuardTwice (rawText : String) (allowed : List String) :
    Except String (String × String) × Except String (String × String) :=
  (guardCore rawText allowed, guardCore rawText allowed)

/-- Outcome of the single `requests.post` call in `LLMArbiter.classify`:
either the transport layer raised (timeout, connection error, ...) or an HTTP
response with a status code and a body arrived. -/
inductive CallOutcome where
  | raised (message : String) : CallOutcome
  | response (status : Nat) (body : String) : CallOutcome

/-- Navigation `data["choices"][0]["message"]["content"]` under
`except (KeyError, IndexError, TypeError)`: every failing shape raises one of
the caught exceptions, modelled by `none`. -/
def extractContent (data : Json) : Option Json :=
  match data with
  | Json.obj fs =>
    match objLookup fs "choices" with
    | some (Json.arr (c0 :: _)) =>
      (match c0 with
       | Json.obj cf =>
         match objLookup cf "message" with
         | some (Json.obj mf) => objLookup mf "content"
         | _ => none
       | _ => none)
    | _ => none
  | _ => none

/-- A usage value usable by the cost arithmetic of `LLMArbiter.classify`
(`int`, `float` and `bool` support `* 0.00005`; any other value raises
`TypeError`). -/
def isNumberLike : Json → Bool
  | Json.num _ => true
  | Json.bool _ => true
  | _ => false

/-- The usage-logging block of `LLMArbiter.classify` (lines 144-155): with a
truthy `data.get("usage")`, `prompt_tokens` and `completion_tokens` must be
present and numeric (they enter the cost arithmetic) and `total_tokens` must
be present; otherwise a `KeyError` or `TypeError` is raised.  Returns `true`
exactly when the block completes without raising. -/
def usageOk (data : Json) : Bool :=
  match data with
  | Json.obj fs =>
    (match objLookup fs "usage" with
     | none => true
     | some u =>
       if jsonTruthy u then
         match u with
         | Json.obj uf =>
           (match objLookup uf "prompt_tokens" with
            | some v => isNumberLike v
            | none => false) &&
           (match objLookup uf "completion_tokens" with
            | some v => isNumberLike v
            | none => false) &&
           (objLookup uf "total_tokens").isSome
         | _ => false
       else true)
  | _ => false

/-- `LLMArbiter._build_prompt` (the prompt f-string; braces written as hex
escapes). -/
def build_prompt (allowed : List String) (context_text : String) : String :=
  let labels_str := String.intercalate ", " allowed
  "\nYou are an expert FICTION taxonomy classifier.\n\nYou must map each story to EXACTLY ONE of the following sub-genres,\nor return [UNMAPPED] if there is no honest fit.\n\nALLOWED SUB-GENRES:\n" ++
  labels_str ++
  "\n\nRULES:\n1. Context Wins: Use the STORY BLURB as the primary signal. User tags are noisy hints and may be misleading.\n2. Honesty: If the story is instructional, non-fiction, or does not clearly match any sub-genre, output [UNMAPPED].\n3. Hierarchy: You are only allowed to choose from the sub-genres listed above, or [UNMAPPED].\n4. Output control: Respond strictly in JSON format.\n\nSTORY CONTEXT:\n" ++
  context_text ++
  "\n\nRespond with JSON ONLY in this exact format:\n\x7b\n  \"category\": \"<one sub-genre from the list above or [UNMAPPED]>\",\n  \"reasoning\": \"1–3 sentences explaining your choice, quoting key phrases from the blurb.\"\n\x7d\n"

/-- `raw_text` handed to `LLMArbiter._safe_parse_json`: the whole body of
`_safe_parse_json` sits inside `try: ... except Exception:`, so for a
non-string content value the `AttributeError` raised by `text.find` is caught
right there and the same fallback dict is returned as for any other parse
failure. -/
def safe_parse_content : Json → List (String × Json)
  | Json.str rawText => safe_parse_json rawText
  | _ => fallbackFields

set_option linter.unusedVariables false in
/-- `LLMArbiter.classify`: build the prompt (`build_prompt`, a pure f-string
whose construction cannot fail and does not influence the modelled outcome),
make the single HTTP call, and validate.  A transport-layer exception
propagates (there is no `try` around `requests.post`); a non-200 status
returns the sentinel with a diagnostic; a 200 response is decoded
(`resp.json()` raises on an undecodable body), its content navigated
(navigation failures fall back to the sentinel), then `_safe_parse_json`
(total, via `safe_parse_content`), the guard steps of lines 130-143 and the
usage logging run. -/
def classify (allowed : List String) (context_text : String) (outcome : CallOutcome) :
    Except String (String × String) :=
  match outcome with
  | CallOutcome.raised message => Except.error message
  | CallOutcome.response status body =>
    if status != 200 then
      Except.ok ("[UNMAPPED]", "Groq API error " ++ toString status ++ ": " ++ pyTake 200 body)
    else
      match jsonLoads body with
      | none => Except.error "json.JSONDecodeError raised by resp.json"
      | some data =>
        match extractContent data with
        | none =>
          Except.ok ("[UNMAPPED]", "Unexpected response format from Groq API; marking as [UNMAPPED].")
        | some contentJ =>
          (match guardFromParsed (safe_parse_content contentJ) allowed with
           | Except.error e => Except.error e
           | Except.ok p =>
             if usageOk data then Except.ok p
             else Except.error "KeyError or TypeError raised in usage logging")

/-- Python `\w` for the ASCII texts this program matches (the regex module
uses Unicode word characters; all pattern letters are ASCII). -/
def isWordChar (c : Char) : Bool :=
  c.isAlpha || c.isDigit || c == '_'

/-- Case-insensitive literal match of `pat` (given lowercase) against a prefix
of `cs`, returning the remainder. -/
def matchCI : List Char → List Char → Option (List Char)
  | [], cs => some cs
  | _ :: _, [] => none
  | p :: ps, c :: cs => if c.toLower == p then matchCI ps cs else none

/-- Word boundary after a match: end of text or a non-word character. -/
def boundaryAfter : List Char → Bool
  | [] => true
  | c :: _ => !(isWordChar c)

/-- Search for `pat` (lowercase, starting and ending in word characters) with
`\b` boundaries on both sides, case-insensitively: exactly
`re.compile(r"\b...\b", re.IGNORECASE).search` for such literal patterns. -/
def searchWord (pat : List Char) : Bool → List Char → Bool
  | _, [] => false
  | prevWord, c :: cs =>
    (!prevWord &&
      (match matchCI pat (c :: cs) with
       | some rest => boundaryAfter rest
       | none => false)) ||
    searchWord pat (isWordChar c) cs

/-- The `NONFICTION_PATTERNS` of `Preprocessor`, expanded into literal
alternatives: `step[- ]by[- ]step` becomes its four spellings and
`ingredients?` its two, which is equivalent for boundary matching. -/
def nonfictionAlternatives : List String :=
  ["how to",
   "step-by-step", "step by-step", "step-by step", "step by step",
   "ingredient", "ingredients",
   "recipe", "prep time", "bake at", "mix", "add", "degrees"]

/-- `Preprocessor.is_obviously_nonfiction`. -/
def is_obviously_nonfiction (blurb : String) : Bool :=
  let text := pyStrip blurb
  nonfictionAlternatives.any (fun pat => searchWord pat.toList false text.toList)

/-- A story record: the Python dict with optional `blurb` and `user_tags`
keys (`story.get` supplies the defaults). -/
structure Story where
  blurb : Option String
  user_tags : Option (List String)

/-- `Preprocessor.build_context`. -/
def build_context (story : Story) : String :=
  let blurb := pyStrip (story.blurb.getD "")
  let tags_list := story.user_tags.getD []
  let tags_text := if tags_list.isEmpty then "None" else String.intercalate ", " tags_list
  "You are classifying a FICTION story into a precise sub-genre.\n" ++
  "Base your decision mainly on the STORY BLURB. " ++
  "User tags are noisy hints and must not override the blurb.\n\n" ++
  "STORY BLURB:\n" ++ blurb ++ "\n\n" ++
  "USER TAGS (noisy hints): " ++ tags_text ++ "\n"

/-- The short-circuit record of `InferenceEngine.map_story` for a flagged
blurb. -/
def shortCircuitFinal : Final :=
  ⟨"[UNMAPPED]",
   "Blurb appears to be instructional/non-fiction, so no honest match in the fiction taxonomy.",
   "UNMAPPED"⟩

/-- `InferenceEngine.map_story`.  The second component counts the
`requests.post` calls issued for the case: the body of `LLMArbiter.classify`
contains exactly one straight-line `requests.post` and no retry loop, so a
non-short-circuited case issues exactly one call. -/
def map_story (allowed : List String) (story : Story) (outcome : CallOutcome) :
    Except String Final × Nat :=
  let blurb := story.blurb.getD ""
  if is_obviously_nonfiction blurb then
    (Except.ok shortCircuitFinal, 0)
  else
    let context_text := build_context story
    ((classify allowed context_text outcome).map toFinal, 1)

/-- `TaxonomyLoader._extract_leaf_labels`: walk the two-level structure in
insertion order, keeping elements of list-valued sub-categories of dict-valued
top-level entries; any other shape is skipped. -/
def leafOfSubtrees : List (String × Json) → List Json
  | [] => []
  | (_, Json.arr xs) :: rest => xs ++ leafOfSubtrees rest
  | _ :: rest => leafOfSubtrees rest

def extract_leaf_labels : List (String × Json) → List Json
  | [] => []
  | (_, Json.obj subtrees) :: rest => leafOfSubtrees subtrees ++ extract_leaf_labels rest
  | _ :: rest => extract_leaf_labels rest

/-- Python `sorted(set(labels))` in `LLMArbiter.__init__`: a duplicate-free
list sorted by the code-point order on strings. -/
def pySortedSet (labels : List String) : List String :=
  (labels.dedup).insertionSort (· ≤ ·)

/-- `needle` occurs as a contiguous substring of `hay`. -/
def strContains (needle hay : String) : Prop :=
  ∃ pre post : List Char, pre ++ needle.data ++ post = hay.data

/-! ### Helper lemmas -/

theorem strAppendNeEmptyLeft (a b : String) (h : a ≠ "") : a ++ b ≠ "" := by
  intro hab
  apply h
  have hd := congrArg String.data hab
  rw [String.data_append] at hd
  have ha : a.data = [] := (List.append_eq_nil.mp (by simpa using hd)).1
  cases a
  simp_all

theorem strAppendNeEmptyRight (a b : String) (h : b ≠ "") : a ++ b ≠ "" := by
  intro hab
  apply h
  have hd := congrArg String.data hab
  rw [String.data_append] at hd
  have hb : b.data = [] := (List.append_eq_nil.mp (by simpa using hd)).2
  cases b
  simp_all

theorem coerceNote_ne_empty : coerceNote ≠ "" := by decide

theorem genericNote_ne_empty : genericNote ≠ "" := by decide

theorem defaultReasoning_fst (p : String × String) : (defaultReasoning p).1 = p.1 := rfl

theorem defaultReasoning_snd_ne (p : String × String) : (defaultReasoning p).2 ≠ "" := by
  unfold defaultReasoning
  by_cases h : p.2 = ""
  · rw [h]
    simpa using genericNote_ne_empty
  · have : (p.2 == "") = false := by simpa using h
    rw [this]
    simpa using h

theorem defaultReasoning_keep (p : String × String) (h : p.2 ≠ "") : defaultReasoning p = p := by
  unfold defaultReasoning
  have hb : (p.2 == "") = false := by simpa using h
  rw [hb]
  simp

theorem contains_true_mem (al : List String) (c : String) (h : al.contains c = true) :
    c ∈ al := by
  simpa [List.contains] using h

theorem hierarchyGuard_fst (j : Json) (al : List String) (r : String) :
    (hierarchyGuard j al r).1 = "[UNMAPPED]" ∨ (hierarchyGuard j al r).1 ∈ al := by
  cases j with
  | str c =>
    unfold hierarchyGuard
    dsimp only
    by_cases hc : (al.contains c || c == "[UNMAPPED]") = true
    · rw [if_pos hc]
      rw [Bool.or_eq_true] at hc
      rcases hc with h | h
      · right
        exact contains_true_mem al c h
      · left
        simpa using h
    · rw [if_neg hc]
      left
      rfl
  | null => left; rfl
  | bool b => left; rfl
  | num z => left; rfl
  | arr xs => left; rfl
  | obj fs => left; rfl

theorem guardFromParsed_ok_elim (parsed : List (String × Json)) (al : List String)
    (p : String × String) (h : guardFromParsed parsed al = Except.ok p) :
    ∃ s, pyOrEmpty (objLookup parsed "reasoning") = Json.str s ∧
      p = defaultReasoning (hierarchyGuard
            ((objLookup parsed "category").getD (Json.str "[UNMAPPED]")) al (pyStrip s)) := by
  unfold guardFromParsed at h
  split at h
  · rename_i s heq
    exact ⟨s, heq, (Except.ok.inj h).symm⟩
  · cases h

theorem guardFromParsed_eq_of_str (parsed : List (String × Json)) (al : List String) (s : String)
    (hr : pyOrEmpty (objLookup parsed "reasoning") = Json.str s) :
    guardFromParsed parsed al = Except.ok (defaultReasoning (hierarchyGuard
      ((objLookup parsed "category").getD (Json.str "[UNMAPPED]")) al (pyStrip s))) := by
  unfold guardFromParsed
  rw [hr]

theorem guardCore_ok_elim (raw : String) (al : List String) (p : String × String)
    (h : guardCore raw al = Except.ok p) :
    ∃ s, pyOrEmpty (objLookup (safe_parse_json raw) "reasoning") = Json.str s ∧
      p = defaultReasoning (hierarchyGuard
            ((objLookup (safe_parse_json raw) "category").getD (Json.str "[UNMAPPED]"))
            al (pyStrip s)) :=
  guardFromParsed_ok_elim _ al p h

theorem guardFromParsed_ok_fst (parsed : List (String × Json)) (al : List String)
    (p : String × String) (h : guardFromParsed parsed al = Except.ok p) :
    p.1 = "[UNMAPPED]" ∨ p.1 ∈ al := by
  rcases guardFromParsed_ok_elim parsed al p h with ⟨s, _, hp⟩
  rw [hp, defaultReasoning_fst]
  exact hierarchyGuard_fst _ al _

theorem guardCore_ok_fst (raw : String) (al : List String) (p : String × String)
    (h : guardCore raw al = Except.ok p) : p.1 = "[UNMAPPED]" ∨ p.1 ∈ al :=
  guardFromParsed_ok_fst (safe_parse_json raw) al p h

theorem guardCore_ok_snd (raw : String) (al : List String) (p : String × String)
    (h : guardCore raw al = Except.ok p) : p.2 ≠ "" := by
  rcases guardCore_ok_elim raw al p h with ⟨s, _, hp⟩
  rw [hp]
  exact defaultReasoning_snd_ne _

theorem classify_ok_fst (al : List String) (ctx : String) (out : CallOutcome)
    (p : String × String) (h : classify al ctx out = Except.ok p) :
    p.1 = "[UNMAPPED]" ∨ p.1 ∈ al := by
  cases out with
  | raised m =>
    simp only [classify] at h
    cases h
  | response status body =>
    simp only [classify] at h
    split at h
    · left
      rw [← Except.ok.inj h]
    · split at h
      · cases h
      · split at h
        · left
          rw [← Except.ok.inj h]
        · split at h
          · cases h
          · rename_i q heq2
            split at h
            · rw [← Except.ok.inj h]
              exact guardFromParsed_ok_fst _ al q heq2
            · cases h

theorem toFinal_status_eq (p : String × String) :
    (toFinal p).status = if p.1 = "[UNMAPPED]" then "UNMAPPED" else "MAPPED" := by
  unfold toFinal
  by_cases h : p.1 = "[UNMAPPED]"
  · simp [h]
  · simp [h]

theorem toFinal_iff (p : String × String) (al : List String)
    (hp : p.1 = "[UNMAPPED]" ∨ p.1 ∈ al) :
    (toFinal p).status = "MAPPED" ↔
      ((toFinal p).category ∈ al ∧ (toFinal p).category ≠ "[UNMAPPED]") := by
  have hcat : (toFinal p).category = p.1 := rfl
  rw [toFinal_status_eq, hcat]
  by_cases h : p.1 = "[UNMAPPED]"
  · rw [if_pos h]
    exact iff_of_false (by decide) (fun hc => hc.2 h)
  · rw [if_neg h]
    rcases hp with hp | hp
    · exact absurd hp h
    · exact iff_of_true rfl ⟨hp, h⟩

/-! ### Claim theorems -/

/-- C1: the claim fails on the code: only a non-success HTTP status is
recovered locally; a timeout or connection error is raised by `requests.post`
and propagates out of `LLMArbiter.classify` and `InferenceEngine.map_story`
uncaught (there is no `try` around the call), contradicting both the claim and
the fallback documented by the comment at line 113 of `llm_arbiter.py` —
evaluated here at a concrete transport-failure outcome. -/
theorem C1_transport_failure_raises :
    classify ["Slasher"] "ctx"
      (CallOutcome.raised "requests.exceptions.ConnectTimeout: request timed out") =
      Except.error "requests.exceptions.ConnectTimeout: request timed out" ∧
    (map_story ["Slasher"]
      (Story.mk (some "A ghost story about a lighthouse keeper.") none)
      (CallOutcome.raised "requests.exceptions.ConnectTimeout: request timed out")).1 =
      Except.error "requests.exceptions.ConnectTimeout: request timed out" :=
  ⟨rfl, rfl⟩

/-- C4: the claim fails on the code: the Guard is not total.  On a raw output
whose parsed reasoning field is a truthy non-string (here the number `5`),
line 131 of `llm_arbiter.py` calls `.strip()` on that value and the resulting
`AttributeError` propagates to the caller instead of a well-formed result
being returned — evaluated here at the concrete failing input. -/
theorem C4_guard_not_total :
    guardCore "\x7b\"category\": \"Slasher\", \"reasoning\": 5\x7d" ["Slasher"] =
      Except.error "AttributeError: the reasoning value has no strip attribute" := rfl

/-- C9: the Guard validation (parse, field extraction, allow-list coercion,
reasoning defaulting) is a deterministic pure function of the raw text and the
allow-list: two successive runs on the same inputs return identical results. -/
theorem C9_guard_deterministic (rawText : String) (allowed : List String) :
    (runGuardTwice rawText allowed).1 = (runGuardTwice rawText allowed).2 := rfl

/-- C2 counterexample: a raw output whose embedded object parses to the
out-of-allow-list category `"Thriller-Noir"` but whose reasoning field is the
truthy non-string `true` makes the Guard raise `AttributeError` instead of
returning the coerced sentinel record, so the claim as stated fails here. -/
theorem C2_cex_reasoning_crash :
    guardFinal "\x7b\"category\": \"Thriller-Noir\", \"reasoning\": true\x7d" ["Slasher"] =
      Except.error "AttributeError: the reasoning value has no strip attribute" := rfl

/-- C5 counterexample: the raw text below embeds a first well-formed object
(category `"Slow-burn"`, in the allow-list) followed by prose containing a
further brace pair; the code parses the substring from the first opening brace
to the LAST closing brace, which is not valid JSON, and fails closed to the
sentinel — not the `"Slow-burn"` result that extracting the first well-formed
object would give. -/
theorem C5_cex_last_brace :
    guardFinal
      "First object: \x7b\"category\": \"Slow-burn\", \"reasoning\": \"fits\"\x7d trailing note \x7bsic\x7d"
      ["Slow-burn", "Slasher"] =
      Except.ok (Final.mk "[UNMAPPED]"
        "Failed to parse JSON from model output; marking as [UNMAPPED] per Honesty rule."
        "UNMAPPED") ∧
    guardFinal
      "First object: \x7b\"category\": \"Slow-burn\", \"reasoning\": \"fits\"\x7d trailing note \x7bsic\x7d"
      ["Slow-burn", "Slasher"] ≠
      Except.ok (Final.mk "Slow-burn" "fits" "MAPPED") := by
  have h : guardFinal
      "First object: \x7b\"category\": \"Slow-burn\", \"reasoning\": \"fits\"\x7d trailing note \x7bsic\x7d"
      ["Slow-burn", "Slasher"] =
      Except.ok (Final.mk "[UNMAPPED]"
        "Failed to parse JSON from model output; marking as [UNMAPPED] per Honesty rule."
        "UNMAPPED") := rfl
  refine ⟨h, fun hc => ?_⟩
  have heq : Final.mk "[UNMAPPED]"
      "Failed to parse JSON from model output; marking as [UNMAPPED] per Honesty rule."
      "UNMAPPED" = Final.mk "Slow-burn" "fits" "MAPPED" :=
    Except.ok.inj (h.symm.trans hc)
  exact absurd heq (by decide)

/-- C6 counterexample: for a non-flagged blurb whose remote call raises a
connection error, `map_story` propagates the exception instead of returning
the Guard-validated result, so the claim as stated fails at this case. -/
theorem C6_cex_call_exception :
    (map_story ["Slasher"] (Story.mk (some "Two rivals fall in love at sea.") none)
      (CallOutcome.raised "requests.exceptions.ConnectionError: connection refused")).1 =
      Except.error "requests.exceptions.ConnectionError: connection refused" := rfl

/-- C3: for every processed case for which a final classification result is
returned, `status = "MAPPED"` iff the final category is a taxonomy label (a
member of the consumed allow-list) and not the sentinel; in particular a raw
model output parsing to an allow-listed category yields `status = "MAPPED"`
with the category unchanged (under the spec data-model invariant that the
sentinel is never a taxonomy label). -/
theorem C3_status_iff_taxonomy_label :
    (∀ (allowed : List String) (story : Story) (outcome : CallOutcome) (r : Final),
        (map_story allowed story outcome).1 = Except.ok r →
        (r.status = "MAPPED" ↔ (r.category ∈ allowed ∧ r.category ≠ "[UNMAPPED]"))) ∧
    (∀ (raw : String) (allowed : List String) (c : String) (r : Final),
        objLookup (safe_parse_json raw) "category" = some (Json.str c) →
        allowed.contains c = true →
        "[UNMAPPED]" ∉ allowed →
        guardFinal raw allowed = Except.ok r →
        (r.status = "MAPPED" ∧ r.category = c)) := by
  constructor
  · intro allowed story outcome r h
    simp only [map_story] at h
    split at h
    · have hr := Except.ok.inj h
      rw [← hr]
      exact iff_of_false (by decide) (fun hc => hc.2 rfl)
    · cases hcl : classify allowed (build_context story) outcome with
      | error e =>
        rw [hcl] at h
        cases h
      | ok p =>
        rw [hcl] at h
        simp only [Except.map] at h
        have hr := Except.ok.inj h
        rw [← hr]
        exact toFinal_iff p allowed (classify_ok_fst allowed (build_context story) outcome p hcl)
  · intro raw allowed c r hcat hcont hsent hok
    cases hg : guardCore raw allowed with
    | error e =>
      rw [guardFinal, hg] at hok
      cases hok
    | ok p =>
      have hr : toFinal p = r := by
        rw [guardFinal, hg] at hok
        simpa [Except.map] using hok
      rcases guardCore_ok_elim raw allowed p hg with ⟨s, _, hp⟩
      rw [hcat, Option.getD_some] at hp
      have hcnotsent : c ≠ "[UNMAPPED]" :=
        fun he => hsent (he ▸ contains_true_mem allowed c hcont)
      have hcond : (allowed.contains c || c == "[UNMAPPED]") = true := by
        rw [hcont]
        rfl
      have hguard : hierarchyGuard (Json.str c) allowed (pyStrip s) = (c, pyStrip s) := by
        unfold hierarchyGuard
        dsimp only
        rw [if_pos hcond]
      rw [hguard] at hp
      have hp1 : p.1 = c := by
        rw [hp, defaultReasoning_fst]
      constructor
      · rw [← hr, toFinal_status_eq, hp1, if_neg hcnotsent]
      · rw [← hr]
        show p.1 = c
        exact hp1

/-- C3 witness: both parts of the invariant applied at a concrete processed
case (a 200 response whose content parses to the allow-listed category
`"Slasher"`), with every hypothesis discharged by evaluation. -/
theorem C3_status_iff_taxonomy_label_witness :
    ((Final.mk "Slasher" "gory" "MAPPED").status = "MAPPED" ↔
      ((Final.mk "Slasher" "gory" "MAPPED").category ∈ ["Slasher", "Slow-burn"] ∧
       (Final.mk "Slasher" "gory" "MAPPED").category ≠ "[UNMAPPED]")) ∧
    ((Final.mk "Slasher" "gory" "MAPPED").status = "MAPPED" ∧
     (Final.mk "Slasher" "gory" "MAPPED").category = "Slasher") :=
  ⟨C3_status_iff_taxonomy_label.1 ["Slasher", "Slow-burn"]
      (Story.mk (some "A ghost story about a lighthouse keeper.") none)
      (CallOutcome.response 200
        "\x7b\"choices\": [\x7b\"message\": \x7b\"content\": \"\x7b\\\"category\\\": \\\"Slasher\\\", \\\"reasoning\\\": \\\"gory\\\"\x7d\"\x7d\x7d]\x7d")
      (Final.mk "Slasher" "gory" "MAPPED") (by rfl),
   C3_status_iff_taxonomy_label.2
      "\x7b\"category\": \"Slasher\", \"reasoning\": \"gory\"\x7d"
      ["Slasher", "Slow-burn"] "Slasher" (Final.mk "Slasher" "gory" "MAPPED")
      (by rfl) (by rfl) (by decide) (by rfl)⟩

/-- C2 (amended): for every raw model output whose embedded object parses to a
category that is neither the sentinel nor an allow-list member, whenever the
Guard returns a result at all (that is, unless the reasoning field holds a
truthy non-string, in which case it raises — see the counterexample), the
result has the sentinel category, status `"UNMAPPED"`, and a reasoning that
contains the coercion notice and the stripped original model reasoning
whenever one was present. -/
theorem C2_out_of_list_coercion :
    ∀ (raw : String) (allowed : List String) (c : String) (r : Final),
      objLookup (safe_parse_json raw) "category" = some (Json.str c) →
      allowed.contains c = false →
      c ≠ "[UNMAPPED]" →
      guardFinal raw allowed = Except.ok r →
      (r.category = "[UNMAPPED]" ∧ r.status = "UNMAPPED" ∧
       strContains coerceNote r.reasoning ∧
       (∀ s, objLookup (safe_parse_json raw) "reasoning" = some (Json.str s) →
          strContains (pyStrip s) r.reasoning)) := by
  intro raw allowed c r hcat hcont hcsent hok
  cases hg : guardCore raw allowed with
  | error e =>
    rw [guardFinal, hg] at hok
    cases hok
  | ok p =>
    have hr : toFinal p = r := by
      rw [guardFinal, hg] at hok
      simpa [Except.map] using hok
    rcases guardCore_ok_elim raw allowed p hg with ⟨s0, hs0, hp⟩
    rw [hcat, Option.getD_some] at hp
    have hcbeq : (c == "[UNMAPPED]") = false := by
      simpa using hcsent
    have hcond : ¬((allowed.contains c || c == "[UNMAPPED]") = true) := by
      rw [hcont, hcbeq]
      simp
    have hguard : hierarchyGuard (Json.str c) allowed (pyStrip s0) =
        ("[UNMAPPED]", if pyStrip s0 == "" then coerceNote else pyStrip s0 ++ coerceNote) := by
      unfold hierarchyGuard
      dsimp only
      rw [if_neg hcond]
    rw [hguard] at hp
    have hrsn_ne : (if pyStrip s0 == "" then coerceNote else pyStrip s0 ++ coerceNote) ≠ "" := by
      by_cases he : (pyStrip s0 == "") = true
      · rw [if_pos he]
        exact coerceNote_ne_empty
      · rw [if_neg he]
        exact strAppendNeEmptyRight _ _ coerceNote_ne_empty
    rw [defaultReasoning_keep _ hrsn_ne] at hp
    have hreas : r.reasoning = (if pyStrip s0 == "" then coerceNote else pyStrip s0 ++ coerceNote) := by
      rw [← hr]
      show p.2 = _
      rw [hp]
    refine ⟨?_, ?_, ?_, ?_⟩
    · rw [← hr]
      show p.1 = "[UNMAPPED]"
      rw [hp]
    · rw [← hr, toFinal_status_eq]
      have hp1 : p.1 = "[UNMAPPED]" := by rw [hp]
      rw [hp1, if_pos rfl]
    · rw [hreas]
      by_cases he : (pyStrip s0 == "") = true
      · rw [if_pos he]
        exact ⟨[], [], by simp⟩
      · rw [if_neg he]
        exact ⟨(pyStrip s0).data, [], by simp [String.data_append]⟩
    · intro s hs
      rw [hs] at hs0
      by_cases ht : (s == "") = true
      · have hse : s = "" := by simpa using ht
        subst hse
        refine ⟨[], r.reasoning.data, ?_⟩
        have hnil : (pyStrip "").data = [] := rfl
        simp [hnil]
      · have hsf : (s == "") = false := by simpa using ht
        have htruthy : jsonTruthy (Json.str s) = true := by
          unfold jsonTruthy
          dsimp only
          rw [hsf]
          rfl
        have hsv : pyOrEmpty (some (Json.str s)) = Json.str s := by
          unfold pyOrEmpty
          dsimp only
          rw [htruthy]
          simp
        rw [hsv] at hs0
        have hss : s = s0 := Json.str.inj hs0
        rw [hreas, ← hss]
        by_cases he : (pyStrip s == "") = true
        · rw [if_pos he]
          have hpe : pyStrip s = "" := by simpa using he
          rw [hpe]
          exact ⟨[], coerceNote.data, by simp⟩
        · rw [if_neg he]
          exact ⟨[], coerceNote.data, by simp [String.data_append]⟩

/-- C2 witness: the amended coercion property applied at the concrete
out-of-taxonomy scenario of the spec (`"Thriller-Noir"` with reasoning
`"dark tone"`), every hypothesis discharged by evaluation. -/
theorem C2_out_of_list_coercion_witness :
    ((Final.mk "[UNMAPPED]" ("dark tone" ++ coerceNote) "UNMAPPED").category = "[UNMAPPED]" ∧
     (Final.mk "[UNMAPPED]" ("dark tone" ++ coerceNote) "UNMAPPED").status = "UNMAPPED" ∧
     strContains coerceNote (Final.mk "[UNMAPPED]" ("dark tone" ++ coerceNote) "UNMAPPED").reasoning ∧
     strContains (pyStrip "dark tone")
       (Final.mk "[UNMAPPED]" ("dark tone" ++ coerceNote) "UNMAPPED").reasoning) :=
  have h := C2_out_of_list_coercion
    "\x7b\"category\": \"Thriller-Noir\", \"reasoning\": \"dark tone\"\x7d"
    ["Slow-burn", "Slasher"] "Thriller-Noir"
    (Final.mk "[UNMAPPED]" ("dark tone" ++ coerceNote) "UNMAPPED")
    (by rfl) (by rfl) (by decide) (by rfl)
  ⟨h.1, h.2.1, h.2.2.1, h.2.2.2 "dark tone" (by rfl)⟩

/-- C5 (amended): extraction takes the substring from the first opening brace
to the last closing brace of the raw text and parses that snippet; whenever
there is no such substring or it fails to parse, the Guard fails closed to the
sentinel with a reasoning stating the parse failure; and the concrete
prose-prefixed scenario of the claim yields the `"Slow-burn"` `MAPPED`
result exactly as stated. -/
theorem C5_first_to_last_brace_extraction :
    (∀ (raw : String) (allowed : List String),
        safe_parse_json raw = fallbackFields →
        guardFinal raw allowed = Except.ok (Final.mk "[UNMAPPED]"
          "Failed to parse JSON from model output; marking as [UNMAPPED] per Honesty rule."
          "UNMAPPED")) ∧
    guardFinal
      "Explanation: fits romance. \x7b\"category\": \"Slow-burn\", \"reasoning\": \"Quotes emotional tension.\"\x7d"
      ["Slow-burn", "Slasher"] =
      Except.ok (Final.mk "Slow-burn" "Quotes emotional tension." "MAPPED") := by
  constructor
  · intro raw allowed h
    rw [guardFinal, guardCore, h]
    rw [guardFromParsed_eq_of_str fallbackFields allowed
      "Failed to parse JSON from model output; marking as [UNMAPPED] per Honesty rule." rfl]
    rw [show (objLookup fallbackFields "category").getD (Json.str "[UNMAPPED]") =
        Json.str "[UNMAPPED]" from rfl]
    have hcond : (allowed.contains "[UNMAPPED]" || "[UNMAPPED]" == "[UNMAPPED]") = true := by
      simp
    have hguard : hierarchyGuard (Json.str "[UNMAPPED]") allowed
        (pyStrip "Failed to parse JSON from model output; marking as [UNMAPPED] per Honesty rule.") =
        ("[UNMAPPED]",
         "Failed to parse JSON from model output; marking as [UNMAPPED] per Honesty rule.") := by
      unfold hierarchyGuard
      dsimp only
      rw [if_pos hcond]
      rfl
    rw [hguard]
    rfl
  · rfl

/-- C5 witness: the fail-closed branch of the amended extraction contract
applied at a raw text containing no structured object at all. -/
theorem C5_first_to_last_brace_extraction_witness :
    guardFinal "no structured object here" ["Slasher"] =
      Except.ok (Final.mk "[UNMAPPED]"
        "Failed to parse JSON from model output; marking as [UNMAPPED] per Honesty rule."
        "UNMAPPED") :=
  C5_first_to_last_brace_extraction.1 "no structured object here" ["Slasher"] (by rfl)

/-- C6 (amended): the Orchestrator runs the pre-filter first — a flagged blurb
short-circuits to the fixed sentinel record with zero remote calls; otherwise
exactly one remote call is issued (no retries) and the returned value is the
classify result mapped to a final record, hence the Guard-validated result
whenever the call and its handling complete without raising (a transport
exception propagates instead — see the counterexample); and the pre-filter
flags the concrete recipe blurb of the claim. -/
theorem C6_sequencing :
    (∀ (allowed : List String) (story : Story) (outcome : CallOutcome),
        is_obviously_nonfiction (story.blurb.getD "") = true →
        map_story allowed story outcome = (Except.ok shortCircuitFinal, 0)) ∧
    (∀ (allowed : List String) (story : Story) (outcome : CallOutcome),
        is_obviously_nonfiction (story.blurb.getD "") = false →
        map_story allowed story outcome =
          ((classify allowed (build_context story) outcome).map toFinal, 1)) ∧
    is_obviously_nonfiction "Step-by-step guide: mix flour and bake at 350 degrees" = true := by
  refine ⟨?_, ?_, by rfl⟩
  · intro allowed story outcome h
    simp [map_story, h]
  · intro allowed story outcome h
    simp [map_story, h]

/-- C6 witness: the short-circuit branch at a flagged blurb and the
single-call branch at a non-flagged one, hypotheses discharged by
evaluation. -/
theorem C6_sequencing_witness :
    map_story ["Slasher"] (Story.mk (some "How to bake bread in ten steps") none)
      (CallOutcome.response 500 "server error") = (Except.ok shortCircuitFinal, 0) ∧
    map_story ["Slasher"] (Story.mk (some "A quiet seaside romance with a storm.") none)
      (CallOutcome.response 500 "server error") =
      ((classify ["Slasher"]
          (build_context (Story.mk (some "A quiet seaside romance with a storm.") none))
          (CallOutcome.response 500 "server error")).map toFinal, 1) :=
  ⟨C6_sequencing.1 ["Slasher"] (Story.mk (some "How to bake bread in ten steps") none)
      (CallOutcome.response 500 "server error") (by rfl),
   C6_sequencing.2.1 ["Slasher"] (Story.mk (some "A quiet seaside romance with a storm.") none)
      (CallOutcome.response 500 "server error") (by rfl)⟩

/-- C7: the Guard never returns an empty reasoning field — every returned
result carries a non-empty reasoning — and on the claim scenario (raw output
with category `"Slasher"` and no reasoning field, `"Slasher"` allow-listed)
the fixed generic explanation is substituted and the status is `"MAPPED"`. -/
theorem C7_nonempty_reasoning :
    (∀ (raw : String) (allowed : List String) (r : Final),
        guardFinal raw allowed = Except.ok r → r.reasoning ≠ "") ∧
    guardFinal "\x7b\"category\": \"Slasher\"\x7d" ["Slow-burn", "Slasher"] =
      Except.ok (Final.mk "Slasher" genericNote "MAPPED") := by
  constructor
  · intro raw allowed r h
    cases hg : guardCore raw allowed with
    | error e =>
      rw [guardFinal, hg] at h
      cases h
    | ok p =>
      have hr : toFinal p = r := by
        rw [guardFinal, hg] at h
        simpa [Except.map] using h
      rw [← hr]
      show p.2 ≠ ""
      exact guardCore_ok_snd raw allowed p hg
  · rfl

/-- C7 witness: the non-emptiness guarantee applied at the scenario result. -/
theorem C7_nonempty_reasoning_witness :
    (Final.mk "Slasher" genericNote "MAPPED").reasoning ≠ "" :=
  C7_nonempty_reasoning.1 "\x7b\"category\": \"Slasher\"\x7d" ["Slow-burn", "Slasher"]
    (Final.mk "Slasher" genericNote "MAPPED") (by rfl)

/-- C8: whenever the flattened leaves of a taxonomy are strings, the allow-list
consumed by the Guard (`sorted(set(...))` in `LLMArbiter.__init__` applied to
`TaxonomyLoader.get_leaf_labels`) is sorted in code-point order, free of
duplicates, and has exactly the flattened leaf labels as members; and the
flattening skips any non-mapping top-level value and any non-sequence
sub-category value instead of erroring. -/
theorem C8_allowlist_from_taxonomy :
    ∀ (t : List (String × Json)) (leaves : List String),
      extract_leaf_labels t = leaves.map Json.str →
      (((pySortedSet leaves).Sorted (· ≤ ·)) ∧
       (pySortedSet leaves).Nodup ∧
       (∀ s, s ∈ pySortedSet leaves ↔ s ∈ leaves)) ∧
      (∀ (k : String) (v : Json), (∀ fs, v ≠ Json.obj fs) →
         extract_leaf_labels ((k, v) :: t) = extract_leaf_labels t) ∧
      (∀ (subs : List (String × Json)) (k : String) (v : Json), (∀ xs, v ≠ Json.arr xs) →
         leafOfSubtrees ((k, v) :: subs) = leafOfSubtrees subs) := by
  intro t leaves _
  refine ⟨⟨?_, ?_, ?_⟩, ?_, ?_⟩
  · exact List.sorted_insertionSort _ _
  · exact ((List.perm_insertionSort _ _).symm).nodup leaves.nodup_dedup
  · intro s
    unfold pySortedSet
    rw [(List.perm_insertionSort _ _).mem_iff]
    exact List.mem_dedup
  · intro k v hv
    cases v with
    | obj fs => exact absurd rfl (hv fs)
    | null => rfl
    | bool b => rfl
    | num z => rfl
    | str s => rfl
    | arr xs => rfl
  · intro subs k v hv
    cases v with
    | arr xs => exact absurd rfl (hv xs)
    | null => rfl
    | bool b => rfl
    | num z => rfl
    | str s => rfl
    | obj fs => rfl

/-- C8 witness: the allow-list property applied at a concrete two-level
taxonomy whose flattening contains a duplicate leaf. -/
theorem C8_allowlist_from_taxonomy_witness :
    (pySortedSet ["Slow-burn", "Slasher", "Slow-burn"]).Nodup ∧
    ((pySortedSet ["Slow-burn", "Slasher", "Slow-burn"]).Sorted (· ≤ ·)) ∧
    ("Slasher" ∈ pySortedSet ["Slow-burn", "Slasher", "Slow-burn"] ↔
      "Slasher" ∈ ["Slow-burn", "Slasher", "Slow-burn"]) :=
  have h := C8_allowlist_from_taxonomy
    [("Fiction", Json.obj [("Romance", Json.arr [Json.str "Slow-burn"]),
       ("Horror", Json.arr [Json.str "Slasher", Json.str "Slow-burn"])])]
    ["Slow-burn", "Slasher", "Slow-burn"] (by rfl)
  ⟨h.1.2.1, h.1.1, h.1.2.2 "Slasher"⟩

/-- C10: a story whose `"blurb"` key is absent or maps to the empty string
does not make `map_story` raise on account of the missing field: the blurb
defaults to the empty string, the pre-filter does not flag the empty text,
and the case proceeds to build the context (whose STORY BLURB section is
empty) and to issue the single remote call; an absent `"user_tags"` key is
rendered as `"None"` in the context. -/
theorem C10_missing_blurb_and_tags :
    ∀ (b : Option String) (tags : Option (List String)) (allowed : List String)
      (outcome : CallOutcome),
      (b = none ∨ b = some "") →
      (is_obviously_nonfiction ((Story.mk b tags).blurb.getD "") = false ∧
       map_story allowed (Story.mk b tags) outcome =
         ((classify allowed (build_context (Story.mk b tags)) outcome).map toFinal, 1) ∧
       (tags = none →
          build_context (Story.mk b tags) =
            "You are classifying a FICTION story into a precise sub-genre.\nBase your decision mainly on the STORY BLURB. User tags are noisy hints and must not override the blurb.\n\nSTORY BLURB:\n\n\nUSER TAGS (noisy hints): None\n")) := by
  intro b tags allowed outcome hb
  have hblurb : (Story.mk b tags).blurb.getD "" = "" := by
    rcases hb with h | h <;> rw [h] <;> rfl
  have hpre : is_obviously_nonfiction ((Story.mk b tags).blurb.getD "") = false := by
    rw [hblurb]
    rfl
  refine ⟨hpre, ?_, ?_⟩
  · simp [map_story, hpre]
  · intro ht
    subst ht
    rcases hb with h | h <;> subst h <;> rfl

/-- C10 witness: the missing-field behaviour applied at a story record with
both keys absent. -/
theorem C10_missing_blurb_and_tags_witness :
    is_obviously_nonfiction ((Story.mk none none).blurb.getD "") = false ∧
    map_story ["Slasher"] (Story.mk none none) (CallOutcome.response 404 "missing") =
      ((classify ["Slasher"] (build_context (Story.mk none none))
         (CallOutcome.response 404 "missing")).map toFinal, 1) ∧
    build_context (Story.mk none none) =
      "You are classifying a FICTION story into a precise sub-genre.\nBase your decision mainly on the STORY BLURB. User tags are noisy hints and must not override the blurb.\n\nSTORY BLURB:\n\n\nUSER TAGS (noisy hints): None\n" :=
  have h := C10_missing_blurb_and_tags none none ["Slasher"]
    (CallOutcome.response 404 "missing") (Or.inl rfl)
  ⟨h.1, h.2.1, h.2.2 rfl⟩
